import Mathlib

/-!
Verification of the str-template library (src/index.js) against its
natural-language specification.

The library compiles a tagged-template pair (literal fragments + interleaved
items) into an evaluator `context -> string`, choosing once, process-wide,
between a code-synthesizing strategy (`Function(...)`, src/index.js lines
26-46) and an interpreted fallback (lines 49-66), and attaches an `if`
conditional-chaining combinator (lines 80-99).

The embedding below models:
  * JavaScript runtime values as far as the library observes them
    (`typeof` classification, property lookup, nullish coalescing,
    string coercion);
  * the interpreted fallback strategy directly (a fold over fragments);
  * the generated strategy in two phases faithful to the source: a code
    generation phase that escapes each fragment and classifies each item
    into the substitution expression the source emits (`a[i]`,
    `c=a[i],c(b)`, `b.key`, `b["key"]`), and a parse/execution phase in
    which the escaped fragment text is "cooked" by the rules ECMAScript
    applies to untagged template literals (escape sequences, line-ending
    normalization, syntax errors for invalid escapes).  `Function(...)`
    parses the synthesized code once per compile call, so cooking failures
    surface as compile-time SyntaxErrors, exactly as in the source.
-/

/-- Errors a render or compile step can raise: `TypeError` (the context
check, null property reads) and `SyntaxError` (thrown by `Function(...)`
when the synthesized code does not parse). -/
inductive JSErr where
  | typeError (msg : String)
  | syntaxError (msg : String)
  deriving DecidableEq, Repr

/-- Message of the TypeError thrown on a non-object context
(src/index.js line 19: `errMsg = 'insert must be an object.'`). -/
def errMsg : String := "insert must be an object."

/-- Values stored in a context object and returned by callable items:
`undefined`, `null`, strings, and (integer) numbers. -/
inductive CtxVal where
  | undefV
  | null
  | vstr (s : String)
  | vnum (n : Int)
  deriving DecidableEq, Repr

/-- Contexts (the single argument of a compiled evaluator), discriminated
the way `typeof` sees them.  Objects are finite string-keyed records. -/
inductive Context where
  | null
  | obj (fields : List (String × CtxVal))
  | num (n : Int)
  | str (s : String)
  | boolv (b : Bool)
  | undefV

/-- Result of JavaScript `typeof` on a context value.  Note that
`typeof null` is `"object"`. -/
def typeofOf : Context → String
  | .null => "object"
  | .obj _ => "object"
  | .num _ => "number"
  | .str _ => "string"
  | .boolv _ => "boolean"
  | .undefV => "undefined"

/-- First-match lookup in an object's field list; a missing key reads as
`undefined`, as in JavaScript. -/
def lookupField (fields : List (String × CtxVal)) (k : String) : CtxVal :=
  match fields.find? (fun p => p.1 == k) with
  | some p => p.2
  | none => .undefV

/-- Property read `b[k]` on a context: reading from `null`/`undefined`
throws a TypeError; objects look the key up; other primitives box to a
wrapper with no own properties, reading as `undefined`. -/
def getProp (b : Context) (k : String) : Except JSErr CtxVal :=
  match b with
  | .obj fields => .ok (lookupField fields k)
  | .null => .error (.typeError "Cannot read properties of null")
  | .undefV => .error (.typeError "Cannot read properties of undefined")
  | _ => .ok .undefV

/-- String interpolation of `v ?? ""`: nullish values contribute the empty
string, other values their string coercion.  Both strategies apply this to
every substitution result (`${... ?? ""}` in the generated code, `?? ""`
in the fallback). -/
def coerceNullish : CtxVal → String
  | .undefV => ""
  | .null => ""
  | .vstr s => s
  | .vnum n => toString n

/-- Interleaved template items, discriminated as the source discriminates
them at src/index.js lines 32-38 and 55-60:
  * `absent` - `undefined` or `null` (skipped entirely);
  * `obj s` - a non-null, non-callable object (`typeof item === 'object'`),
    carrying its string coercion `s`;
  * `fn f` - a callable, invoked with the context at render time;
  * `key k` - any other primitive, used as a property key; `k` is its
    string coercion (string keys verbatim, finite numbers in decimal). -/
inductive Item where
  | absent
  | obj (coercion : String)
  | fn (f : Context → Except JSErr CtxVal)
  | key (k : String)

/-- Compiled evaluator: renders a context to a string or throws. -/
abbrev Evaluator := Context → Except JSErr String

/-- Shape of `bareTemplate`: compiling may itself throw (the generated
strategy's `Function(...)` call can raise a SyntaxError). -/
abbrev CompileFn := List String → List Item → Except JSErr Evaluator

/-! ## The interpreted fallback strategy (src/index.js lines 49-66) -/

/-- Substitution contributed by one item under the fallback strategy
(src/index.js lines 55-61): nullish items are skipped, objects coerce
directly, callables are invoked with the context, anything else is a key
looked up in the context; the result then passes through `?? ""`. -/
def substItem (insert : Context) : Item → Except JSErr String
  | .absent => .ok ""
  | .obj s => .ok s
  | .fn f => (f insert).map coerceNullish
  | .key k => (getProp insert k).map coerceNullish

/-- The fallback strategy's `template.reduce` loop (src/index.js lines
52-65): append each fragment, and after every fragment except the last the
substitution of the item at the same index (a missing item reads as
`undefined`, hence `absent`). -/
def foldParts (insert : Context) : List String → List Item → String →
    Except JSErr String
  | [], _, acc => .ok acc
  | [s], _, acc => .ok (acc ++ s)
  | s :: s2 :: rest, items, acc => do
    let contrib ← substItem insert (items.headD .absent)
    foldParts insert (s2 :: rest) items.tail (acc ++ s ++ contrib)

/-- The fallback `bareTemplate` (src/index.js lines 49-66): the returned
evaluator checks `typeof insert !== 'object'` on every call, then folds
over the fragments.  Compilation itself never throws. -/
def bareTemplateFallback (template : List String) (items : List Item) :
    Evaluator := fun insert =>
  if typeofOf insert ≠ "object" then .error (.typeError errMsg)
  else foldParts insert template items ""

/-! ## The generated strategy (src/index.js lines 26-46)

Phase 1 (code generation): each fragment is escaped by
`string.replace(/(`|\$)/g, '\\$1')` and each non-nullish item is turned
into one of four substitution expressions.  Phase 2 (the `Function(...)`
call): the synthesized source is parsed - which cooks the escaped fragment
text by the untagged-template-literal rules and can throw a SyntaxError -
and yields the evaluator, which checks the context's `typeof` and then
evaluates the literal. -/

/-- Escaping applied to every fragment before embedding
(src/index.js lines 23, 29-30): each backtick and each dollar sign gets a
backslash prefixed; every other character is left untouched. -/
def escChars : List Char → List Char
  | [] => []
  | c :: rest =>
    if c = '`' || c = '$' then '\\' :: c :: escChars rest
    else c :: escChars rest

/-- String form of `escChars`. -/
def escapeFragment (s : String) : String := (escChars s.data).asString

/-- Hexadecimal digit test. -/
def isHexDig (c : Char) : Bool :=
  c.isDigit || ('a' ≤ c && c ≤ 'f') || ('A' ≤ c && c ≤ 'F')

/-- Numeric value of a hexadecimal digit. -/
def hexDigitVal (c : Char) : Nat :=
  if c.isDigit then c.toNat - '0'.toNat
  else if 'a' ≤ c && c ≤ 'f' then c.toNat - 'a'.toNat + 10
  else c.toNat - 'A'.toNat + 10

/-- Value of a single-character escape sequence `\e` inside a template
literal: the named escapes map to control characters; any other character
(including backtick, dollar and backslash) stands for itself. -/
def escCharVal (e : Char) : Char :=
  if e = 'n' then '\n'
  else if e = 't' then '\t'
  else if e = 'r' then '\r'
  else if e = 'b' then '\x08'
  else if e = 'f' then '\x0C'
  else if e = 'v' then '\x0B'
  else e

/-- Message of the SyntaxError raised when a trailing backslash escapes
the synthesized literal's closing delimiter. -/
def untermTemplateMsg : String := "Unterminated template literal"

/-- Cooking of the escaped fragment text embedded in the synthesized
template literal, following the ECMAScript rules for untagged template
literals that `Function(...)` applies when parsing:
  * `\` followed by a named escape, `\xHH`, or `\uHHHH` produces the
    escaped character; `\` before any other ordinary character produces
    that character (covering the compiler's own ``` backtick and `\$`
    escapes and `\\`);
  * octal-like escapes (`\1`..`\9`, `\0` before a digit, `\8`, `\9`) and
    malformed `\x`/`\u` sequences are SyntaxErrors;
  * `\` before a line terminator is a line continuation;
  * a trailing `\` escapes the closing delimiter: SyntaxError;
  * raw CR and CRLF are normalized to LF.
Model limits, each unreachable for text produced by `escapeFragment` from
a backslash-free fragment: braced `\u{...}` escapes are reported as
SyntaxErrors; the digit lookahead that makes `\0` before a decimal digit a
SyntaxError is not modeled (`\0` always cooks to NUL); and a raw backtick
or raw `${` - which would end or escape the literal, handing the rest of
the fragment to the JavaScript parser as code - is conservatively reported
as a SyntaxError as well. -/
def cookChars : List Char → Except JSErr (List Char)
  | [] => .ok []
  | ['\\'] => .error (.syntaxError untermTemplateMsg)
  | '\\' :: '0' :: rest => (fun l => '\x00' :: l) <$> cookChars rest
  | '\\' :: 'x' :: h1 :: h2 :: rest =>
    if isHexDig h1 && isHexDig h2 then
      (fun l => Char.ofNat (16 * hexDigitVal h1 + hexDigitVal h2) :: l) <$>
        cookChars rest
    else .error (.syntaxError "Invalid hexadecimal escape sequence")
  | '\\' :: 'x' :: _ => .error (.syntaxError "Invalid hexadecimal escape sequence")
  | '\\' :: 'u' :: h1 :: h2 :: h3 :: h4 :: rest =>
    if isHexDig h1 && isHexDig h2 && isHexDig h3 && isHexDig h4 then
      (fun l => Char.ofNat
          (((16 * hexDigitVal h1 + hexDigitVal h2) * 16 + hexDigitVal h3) * 16
            + hexDigitVal h4) :: l) <$>
        cookChars rest
    else .error (.syntaxError "Invalid Unicode escape sequence")
  | '\\' :: 'u' :: _ => .error (.syntaxError "Invalid Unicode escape sequence")
  | '\\' :: '\n' :: rest => cookChars rest
  | '\\' :: '\r' :: '\n' :: rest => cookChars rest
  | '\\' :: '\r' :: rest => cookChars rest
  | '\\' :: '\u2028' :: rest => cookChars rest
  | '\\' :: '\u2029' :: rest => cookChars rest
  | '\\' :: e :: rest =>
    if e.isDigit then .error (.syntaxError "Octal escape sequences are not allowed")
    else (fun l => escCharVal e :: l) <$> cookChars rest
  | '`' :: _ => .error (.syntaxError "Unexpected end of template literal")
  | '$' :: '{' :: _ => .error (.syntaxError "Unexpected substitution in template literal")
  | '$' :: rest => (fun l => '$' :: l) <$> cookChars rest
  | '\r' :: '\n' :: rest => (fun l => '\n' :: l) <$> cookChars rest
  | '\r' :: rest => (fun l => '\n' :: l) <$> cookChars rest
  | c :: rest => (fun l => c :: l) <$> cookChars rest

/-- String form of `cookChars`. -/
def cookStr (s : String) : Except JSErr String :=
  (cookChars s.data).map List.asString

/-- Conservative model of the identifier test
`/^[\p{IDS}$_][\p{IDC}$_]*$/u` (src/index.js line 24), restricted to the
ASCII identifier characters.  The two access forms it selects between are
proved to evaluate identically (`evalGenSubst_prop_eq_computed`), so the
exact extension of this predicate never affects a rendered string. -/
def isIdStart (c : Char) : Bool := c.isAlpha || c = '$' || c = '_'

/-- Continuation character of the identifier test. -/
def isIdContinue (c : Char) : Bool := c.isAlphanum || c = '$' || c = '_'

/-- Whole-string identifier test used to choose between `b.key` and
`b["key"]` in the generated code (src/index.js line 37). -/
def isIdentifier (s : String) : Bool :=
  match s.data with
  | [] => false
  | c :: rest => isIdStart c && rest.all isIdContinue

/-- Substitution expressions the code generator emits (src/index.js lines
34-39), with the array reference `a[i]` resolved to the item it denotes
(the items array is captured once and never mutated):
  * `objLit s` - `${a[i]??""}` where `a[i]` is the wrapped literal with
    coercion `s`;
  * `call f` - `${c=a[i],c(b)??""}` where `a[i]` is the callable `f`
    (the comma operator binds loosest, so `??""` applies to `c(b)`);
  * `prop k` - `${b.k??""}` for an identifier key;
  * `computed k` - `${b[<JSON-encoded k>]??""}` for any other key. -/
inductive GenSubst where
  | objLit (s : String)
  | call (f : Context → Except JSErr CtxVal)
  | prop (k : String)
  | computed (k : String)

/-- Item classification performed by the code generator (src/index.js
lines 32-39): nullish items produce no substitution, objects an `a[i]`
reference, callables a `c=a[i],c(b)` call, and any other item a context
lookup, by property access when the key passes the identifier test and by
computed access otherwise. -/
def classifyGen : Item → Option GenSubst
  | .absent => none
  | .obj s => some (.objLit s)
  | .fn f => some (.call f)
  | .key k => some (if isIdentifier k then .prop k else .computed k)

/-- The code generation fold (src/index.js lines 27-43): every fragment is
escaped, and every fragment except the last is followed by the
substitution its item classifies to (a missing item reads as
`undefined`). -/
def genParts : List String → List Item → List (String × Option GenSubst)
  | [], _ => []
  | [s], _ => [(escapeFragment s, none)]
  | s :: s2 :: rest, items =>
    (escapeFragment s, classifyGen (items.headD .absent)) ::
      genParts (s2 :: rest) items.tail

/-- Parsing of the synthesized literal by `Function(...)`: every escaped
fragment is cooked; the first cooking failure aborts compilation with its
SyntaxError. -/
def cookParts : List (String × Option GenSubst) →
    Except JSErr (List (String × Option GenSubst))
  | [] => .ok []
  | (s, sub) :: rest => do
    let cs ← cookStr s
    let crest ← cookParts rest
    .ok ((cs, sub) :: crest)

/-- Evaluation of one substitution expression of the synthesized literal
against the context `b`. -/
def evalGenSubst (b : Context) : GenSubst → Except JSErr String
  | .objLit s => .ok s
  | .call f => (f b).map coerceNullish
  | .prop k => (getProp b k).map coerceNullish
  | .computed k => (getProp b k).map coerceNullish

/-- Left-to-right evaluation of the synthesized template literal: cooked
fragment text, then the substitution's value, a thrown substitution
aborting the render. -/
def evalGenParts (b : Context) : List (String × Option GenSubst) → String →
    Except JSErr String
  | [], acc => .ok acc
  | (s, none) :: rest, acc => evalGenParts b rest (acc ++ s)
  | (s, some sub) :: rest, acc => do
    let v ← evalGenSubst b sub
    evalGenParts b rest (acc ++ s ++ v)

/-- The generated-strategy `bareTemplate` (src/index.js lines 26-46):
generate the literal's parts, parse them once (`Function(...)`, possibly a
SyntaxError), and return an evaluator that checks
`typeof b != "object"` on every call and then evaluates the literal. -/
def bareTemplateGen (template : List String) (items : List Item) :
    Except JSErr Evaluator := do
  let parts ← cookParts (genParts template items)
  .ok fun b =>
    if typeofOf b ≠ "object" then .error (.typeError errMsg)
    else evalGenParts b parts ""

/-- Compile-then-render under the generated strategy; a compile-time
SyntaxError propagates. -/
def genRun (template : List String) (items : List Item) (b : Context) :
    Except JSErr String :=
  bareTemplateGen template items >>= fun e => e b

/-- The generated strategy as a `CompileFn`. -/
def btGen : CompileFn := bareTemplateGen

/-- The fallback strategy as a `CompileFn` (its compile step never
throws). -/
def btFallback : CompileFn := fun t its => .ok (bareTemplateFallback t its)

/-! ## The Template `if` combinator (src/index.js lines 80-99) -/

/-- Delimiter argument of `if`: omitted (`undefined`, so the default
`' '` applies), a string, or a function (then reinterpreted as the
continuation). -/
inductive DelimArg where
  | omitted
  | strD (s : String)
  | fnD (f : Evaluator)

/-- Continuation argument of `if`: omitted or a ready-made evaluator. -/
inductive CallbackArg where
  | omitted
  | fnC (f : Evaluator)

/-- Argument normalization at the top of `if` (src/index.js lines 80-87):
the default parameter makes an omitted delimiter `' '`, and a callable
delimiter is moved into the callback slot (overwriting it) with the
delimiter reverting to `' '`. -/
def normalizeIfArgs : DelimArg → CallbackArg → String × CallbackArg
  | .fnD f, _ => (" ", .fnC f)
  | .omitted, cb => (" ", cb)
  | .strD s, cb => (s, cb)

/-- Evaluator of the conditional chain node built in the truthy branch
(src/index.js lines 91-92): `insert => this(insert) + delimiter +
nextReducer(insert)`, left to right, both sides unconditional. -/
def chainEval (this nextReducer : Evaluator) (delimiter : String) :
    Evaluator := fun insert => do
  let a ← this insert
  let b ← nextReducer insert
  .ok (a ++ delimiter ++ b)

/-- The `reduce` closure of `if` (src/index.js lines 89-94): with a truthy
condition a new chained Template, with a falsy one the receiver itself. -/
def ifReduce (this : Evaluator) (cond : Bool) (delimiter : String)
    (nextReducer : Evaluator) : Evaluator :=
  if cond then chainEval this nextReducer delimiter else this

/-- The curried tag function returned when no callback was supplied
(src/index.js line 98): `(...args) => reduce(bareTemplate(...args))`.  The
argument `bareTemplate(...args)` is evaluated before `reduce` is entered,
so compilation always happens (and its errors propagate) regardless of the
condition. -/
def ifTag (bt : CompileFn) (this : Evaluator) (cond : Bool)
    (delimiter : String) (strings : List String) (items : List Item) :
    Except JSErr Evaluator :=
  (bt strings items).map (ifReduce this cond delimiter)

/-- Result of a call to `if`: a Template, or the curried tag function. -/
inductive IfResult where
  | tmpl (e : Evaluator)
  | curried (tag : List String → List Item → Except JSErr Evaluator)

/-- The `if` method (src/index.js lines 80-99) on a callable receiver:
normalize the arguments, then either reduce a ready-made continuation or
return the curried tag function. -/
def templateIf (bt : CompileFn) (this : Evaluator) (cond : Bool)
    (delim : DelimArg) (cb : CallbackArg) : IfResult :=
  match normalizeIfArgs delim cb with
  | (d, .fnC f) => .tmpl (ifReduce this cond d f)
  | (d, .omitted) => .curried (ifTag bt this cond d)

/-- Concatenation of a fragment list (used to state the no-item render
results). -/
def concatAll : List String → String
  | [] => ""
  | s :: rest => s ++ concatAll rest

/-- Fragments are well behaved for the generated strategy when they
contain neither a backslash nor a carriage return - the two characters the
escape step leaves untouched but template-literal parsing reinterprets. -/
def goodFrag (s : String) : Bool :=
  s.data.all (fun c => c != '\\' && c != '\r')


/-! ## Helper lemmas -/

/-- Bind on a successful `Except` computation reduces to the
continuation. -/
theorem bindOk {α β ε : Type} (a : α) (f : α → Except ε β) :
    (Except.ok a : Except ε α) >>= f = f a := rfl

/-- Map over a successful `Except` computation. -/
theorem mapOk {α β ε : Type} (f : α → β) (a : α) :
    f <$> (Except.ok a : Except ε α) = .ok (f a) := rfl

/-- Map over a failed `Except` computation. -/
theorem mapErr {α β ε : Type} (f : α → β) (e : ε) :
    f <$> (Except.error e : Except ε α) = .error e := rfl

/-- Bind on a failed `Except` computation propagates the error. -/
theorem bindErr {α β ε : Type} (e : ε) (f : α → Except ε β) :
    (Except.error e : Except ε α) >>= f = .error e := rfl

/-- Method-form map over a successful `Except` computation. -/
theorem exceptMapOk {α β ε : Type} (f : α → β) (a : α) :
    Except.map f (Except.ok a : Except ε α) = .ok (f a) := rfl

/-- Method-form map over a failed `Except` computation. -/
theorem exceptMapErr {α β ε : Type} (f : α → β) (e : ε) :
    Except.map f (Except.error e : Except ε α) = .error e := rfl

/-- Identifier-style and computed-style context access evaluate to the
same lookup, so the identifier test chooses between observationally equal
substitutions. -/
theorem evalGenSubst_prop_eq_computed (b : Context) (k : String) :
    evalGenSubst b (.prop k) = evalGenSubst b (.computed k) := rfl

set_option maxHeartbeats 1600000 in
/-- Cooking an ordinary character (not a backslash, backtick, dollar sign,
or carriage return) passes it through. -/
theorem cookChars_cons_plain (c : Char) (rest : List Char) (h1 : c ≠ '\\')
    (h2 : c ≠ '`') (h3 : c ≠ '$') (h4 : c ≠ '\r') :
    cookChars (c :: rest) = (fun l => c :: l) <$> cookChars rest := by
  rw [cookChars.eq_def]
  split <;> simp_all

/-- Cooking inverts escaping on character lists free of backslashes and
carriage returns: the escape step protects exactly the backtick and the
dollar sign, and cooking maps each protected character back to itself. -/
theorem cook_escChars (cs : List Char) (h : ∀ c ∈ cs, c ≠ '\\' ∧ c ≠ '\r') :
    cookChars (escChars cs) = .ok cs := by
  induction cs with
  | nil => rfl
  | cons c rest ih =>
    have hc := h c (List.mem_cons_self c rest)
    have hrest : ∀ x ∈ rest, x ≠ '\\' ∧ x ≠ '\r' :=
      fun x hx => h x (List.mem_cons_of_mem c hx)
    by_cases hbq : c = '`'
    · subst hbq
      have he : escChars ('`' :: rest) = '\\' :: '`' :: escChars rest := by
        simp [escChars]
      have hstep : cookChars ('\\' :: '`' :: escChars rest) =
          (fun l => escCharVal '`' :: l) <$> cookChars (escChars rest) := rfl
      rw [he, hstep, ih hrest]
      rfl
    · by_cases hds : c = '$'
      · subst hds
        have he : escChars ('$' :: rest) = '\\' :: '$' :: escChars rest := by
          simp [escChars]
        have hstep : cookChars ('\\' :: '$' :: escChars rest) =
            (fun l => escCharVal '$' :: l) <$> cookChars (escChars rest) := rfl
        rw [he, hstep, ih hrest]
        rfl
      · have he : escChars (c :: rest) = c :: escChars rest := by
          simp [escChars, hbq, hds]
        rw [he, cookChars_cons_plain c _ hc.1 hbq hds hc.2, ih hrest]
        rfl

/-- String-level form of `cook_escChars`: parsing recovers any fragment
free of backslashes and carriage returns verbatim. -/
theorem cookStr_escape (s : String) (h : goodFrag s = true) :
    cookStr (escapeFragment s) = .ok s := by
  have h' : ∀ c ∈ s.data, c ≠ '\\' ∧ c ≠ '\r' := by
    intro c hc
    have := List.all_eq_true.mp h c hc
    simp only [Bool.and_eq_true, bne_iff_ne] at this
    exact this
  calc cookStr (escapeFragment s)
      = (cookChars (escChars s.data)).map List.asString := rfl
    _ = (Except.ok s.data).map List.asString := by rw [cook_escChars s.data h']
    _ = .ok s := rfl

/-- With no items every substitution slot classifies to nothing. -/
theorem genParts_noItems (t : List String) :
    genParts t [] = t.map (fun s => (escapeFragment s, none)) := by
  induction t with
  | nil => rfl
  | cons s rest ih =>
    cases rest with
    | nil => rfl
    | cons s2 r2 => simpa [genParts, classifyGen] using ih

/-- Parsing a substitution-free part list built from well-behaved
fragments succeeds and recovers each fragment verbatim. -/
theorem cookParts_noSubst (t : List String) (h : t.all goodFrag = true) :
    cookParts (t.map (fun s => (escapeFragment s, none))) =
      .ok (t.map (fun s => (s, none))) := by
  induction t with
  | nil => rfl
  | cons s rest ih =>
    simp only [List.all_cons, Bool.and_eq_true] at h
    simp [cookParts, cookStr_escape s h.1, ih h.2, bindOk]

/-- Evaluating a substitution-free part list concatenates the fragments
onto the accumulator. -/
theorem evalGenParts_noSubst (b : Context) (t : List String) (acc : String) :
    evalGenParts b (t.map (fun s => (s, none))) acc = .ok (acc ++ concatAll t) := by
  induction t generalizing acc with
  | nil => simp [evalGenParts, concatAll]
  | cons s rest ih => simp [evalGenParts, concatAll, ih, String.append_assoc]

/-- The fallback fold over a template with no items concatenates the
fragments onto the accumulator. -/
theorem foldParts_noItems (insert : Context) (t : List String) (acc : String) :
    foldParts insert t [] acc = .ok (acc ++ concatAll t) := by
  induction t generalizing acc with
  | nil => simp [foldParts, concatAll]
  | cons s rest ih =>
    cases rest with
    | nil => simp [foldParts, concatAll]
    | cons s2 r2 =>
      simp [foldParts, substItem, concatAll, bindOk, ih, String.append_assoc]

/-- Unfolding of compile-then-render once the parse phase is known to have
succeeded. -/
theorem genRun_ok_parts (t : List String) (its : List Item)
    (parts : List (String × Option GenSubst)) (b : Context)
    (h : cookParts (genParts t its) = .ok parts) :
    genRun t its b =
      if typeofOf b ≠ "object" then .error (.typeError errMsg)
      else evalGenParts b parts "" := by
  simp [genRun, bareTemplateGen, h, bindOk]

/-- Compile-then-render of an item-free template with well-behaved
fragments, on an object-typed context, concatenates the fragments. -/
theorem genRun_noItems (t : List String) (h : t.all goodFrag = true)
    (b : Context) (hb : typeofOf b = "object") :
    genRun t [] b = .ok (concatAll t) := by
  have h3 : cookParts (genParts t []) = .ok (t.map (fun s => (s, none))) := by
    rw [genParts_noItems t]
    exact cookParts_noSubst t h
  rw [genRun_ok_parts t [] _ b h3, if_neg (by simp [hb]),
    evalGenParts_noSubst b t "", String.empty_append]

/-! ## Sample evaluators used by witnesses and counterexamples -/

/-- Receiver used when exercising the `if` combinator on concrete
inputs. -/
def probeReceiver : Evaluator := fun _ => .ok "X"

/-- Left-hand sample template evaluator. -/
def sampleLeft : Evaluator := fun _ => .ok "L"

/-- Right-hand sample template evaluator. -/
def sampleRight : Evaluator := fun _ => .ok "R"

/-- Continuation that throws whenever it is invoked. -/
def throwingEval : Evaluator := fun _ => .error (.typeError "continuation invoked")

/-! ## Claims -/

/-- C1: the claim states that the generated and the fallback strategy
return byte-identical strings for every fragments/items pair satisfying
the length invariant and every valid context.  The code violates this: on
the single fragment consisting of two backslash characters (no items, the
invariant holds, context `{}` valid), the fallback renders the fragment
verbatim while the synthesized template literal cooks `\\` to one
backslash, because the escape step (src/index.js line 23) protects only
the backtick and the dollar sign.  The strategies disagree, contradicting
the byte-identical contract the spec calls the component's core
correctness property. -/
theorem strategies_not_byte_identical :
    genRun ["\\\\"] [] (.obj []) = .ok "\\"
    ∧ bareTemplateFallback ["\\\\"] [] (.obj []) = .ok "\\\\"
    ∧ ("\\" : String) ≠ "\\\\" :=
  ⟨rfl, rfl, by decide⟩

/-- C2: the claim states that when `if` is used in curried tag form under
a falsy condition, the supplied fragments/items are never compiled.  The
code violates this: at src/index.js line 98 the returned tag function is
`(...args) => reduce(bareTemplate(...args))`, and the argument
`bareTemplate(...args)` is evaluated before `reduce`'s condition gate is
reached.  Observably, under the generated strategy, applying the falsy
curried tag to the single fragment `"\"` makes `Function(...)` throw a
SyntaxError (the backslash escapes the synthesized literal's closing
delimiter) instead of returning the receiver. -/
theorem falsy_curried_still_compiles :
    templateIf bareTemplateGen probeReceiver false .omitted .omitted =
      .curried (ifTag bareTemplateGen probeReceiver false " ")
    ∧ ifTag bareTemplateGen probeReceiver false " " ["\\"] [] =
        .error (.syntaxError untermTemplateMsg) :=
  ⟨rfl, rfl⟩

/-- C3 counterexample: the claim's concrete example is false on the code.
Compiling fragments `["sum="]` with items `[Object(3)]` pairs the item
with the last fragment, and the reduce loop of both strategies only emits
a substitution when the index is not the last (src/index.js lines 31, 54),
so the item is ignored and the render yields `"sum="`, not `"sum=3"`. -/
theorem wrapped_literal_spec_example_false :
    bareTemplateFallback ["sum="] [.obj "3"] (.obj []) = .ok "sum="
    ∧ genRun ["sum="] [.obj "3"] (.obj []) = .ok "sum="
    ∧ ("sum=" : String) ≠ "sum=3" :=
  ⟨rfl, rfl, by decide⟩

/-- C3 amended: wrapped-literal substitution never consults the context -
with the invariant-satisfying fragments `["sum=", ""]` and items
`[Object(3)]`, both strategies render `"sum=3"` on every object-typed
context whatsoever. -/
theorem wrapped_literal_ignores_context (b : Context)
    (h : typeofOf b = "object") :
    bareTemplateFallback ["sum=", ""] [.obj "3"] b = .ok "sum=3"
    ∧ genRun ["sum=", ""] [.obj "3"] b = .ok "sum=3" := by
  constructor
  · simp [bareTemplateFallback, h, foldParts, substItem, bindOk]
  · rw [genRun_ok_parts ["sum=", ""] [.obj "3"]
      [("sum=", some (.objLit "3")), ("", none)] b rfl]
    simp [h, evalGenParts, evalGenSubst, bindOk]

/-- C3 amended, witness at the empty-object context. -/
theorem wrapped_literal_ignores_context_witness :
    bareTemplateFallback ["sum=", ""] [.obj "3"] (.obj []) = .ok "sum=3"
    ∧ genRun ["sum=", ""] [.obj "3"] (.obj []) = .ok "sum=3" :=
  wrapped_literal_ignores_context (.obj []) rfl

/-- C4 counterexample: the claim asserts that escaping exactly the
backtick and the dollar sign suffices for every fragment to appear
verbatim in the generated strategy's output.  It does not: the
two-character fragment `\a` contains neither, is embedded unchanged, and
the synthesized literal cooks the escape sequence `\a` to `a`, so the
rendered output drops the backslash. -/
theorem escape_insufficient_for_backslash :
    genRun ["\\a"] [] (.obj []) = .ok "a"
    ∧ ("a" : String) ≠ "\\a" :=
  ⟨rfl, by decide⟩

/-- C4 amended: the generated strategy escapes exactly the backtick and
the dollar sign (each other character is embedded untouched), and this
suffices for the fragment to appear verbatim in the rendered output for
every fragment containing no backslash and no carriage return. -/
theorem escape_exact_and_sufficient_sans_backslash (s : String) (c : Char)
    (hs : goodFrag s = true) (h1 : c ≠ '`') (h2 : c ≠ '$') :
    escapeFragment (String.mk [c]) = String.mk [c]
    ∧ escapeFragment "`" = "\\`"
    ∧ escapeFragment "$" = "\\$"
    ∧ cookStr (escapeFragment s) = .ok s
    ∧ genRun [s] [] (.obj []) = .ok s := by
  refine ⟨?_, rfl, rfl, cookStr_escape s hs, ?_⟩
  · simp [escapeFragment, escChars, h1, h2, List.asString]
  · have hcp : cookParts (genParts [s] []) = .ok [(s, none)] := by
      simp [genParts, cookParts, cookStr_escape s hs, bindOk]
    rw [genRun_ok_parts [s] [] [(s, none)] (.obj []) hcp,
      if_neg (by simp [typeofOf])]
    simp [evalGenParts, String.empty_append]

/-- C4 amended, witness on a fragment containing both characters that do
get escaped. -/
theorem escape_exact_and_sufficient_sans_backslash_witness :
    escapeFragment (String.mk ['z']) = String.mk ['z']
    ∧ escapeFragment "`" = "\\`"
    ∧ escapeFragment "$" = "\\$"
    ∧ cookStr (escapeFragment "a$b`c") = .ok "a$b`c"
    ∧ genRun ["a$b`c"] [] (.obj []) = .ok "a$b`c" :=
  escape_exact_and_sufficient_sans_backslash "a$b`c" 'z' (by decide)
    (by decide) (by decide)

/-- C5: on a callable receiver `T`, a truthy condition, a string delimiter
`d` and a ready-made continuation `C`, `if` returns a new Template whose
evaluation on a context `x` is `T(x) + d + C(x)`, both sides evaluated
unconditionally at render time; a callable delimiter is reinterpreted as
the continuation and an omitted delimiter also reverts to the default
single space (the curried tag then chains with that default). -/
theorem if_truthy_chains (bt : CompileFn) (T C : Evaluator) (d : String)
    (x : Context) (a b : String) (cb : CallbackArg)
    (ha : T x = .ok a) (hb : C x = .ok b) :
    templateIf bt T true (.strD d) (.fnC C) = .tmpl (ifReduce T true d C)
    ∧ ifReduce T true d C x = .ok (a ++ d ++ b)
    ∧ templateIf bt T true (.fnD C) cb = .tmpl (ifReduce T true " " C)
    ∧ ifReduce T true " " C x = .ok (a ++ " " ++ b)
    ∧ templateIf bt T true DelimArg.omitted CallbackArg.omitted =
        .curried (ifTag bt T true " ") := by
  refine ⟨rfl, ?_, rfl, ?_, rfl⟩ <;> simp [ifReduce, chainEval, ha, hb, bindOk]

/-- C5 witness. -/
theorem if_truthy_chains_witness :
    templateIf btFallback sampleLeft true (.strD "-") (.fnC sampleRight) =
      .tmpl (ifReduce sampleLeft true "-" sampleRight)
    ∧ ifReduce sampleLeft true "-" sampleRight (.obj []) = .ok ("L" ++ "-" ++ "R")
    ∧ templateIf btFallback sampleLeft true (.fnD sampleRight) .omitted =
        .tmpl (ifReduce sampleLeft true " " sampleRight)
    ∧ ifReduce sampleLeft true " " sampleRight (.obj []) = .ok ("L" ++ " " ++ "R")
    ∧ templateIf btFallback sampleLeft true DelimArg.omitted CallbackArg.omitted =
        .curried (ifTag btFallback sampleLeft true " ") :=
  if_truthy_chains btFallback sampleLeft sampleRight "-" (.obj []) "L" "R"
    .omitted rfl rfl

/-- C6: under a falsy condition `if` is an identity of the chaining
combinator: with a ready-made continuation it returns the receiver itself
(whatever the delimiter argument), in curried form it returns a tag
function, and applying that tag to any pair the compiler accepts again
returns the receiver itself. -/
theorem if_falsy_identity (bt : CompileFn) (T C : Evaluator)
    (delim : DelimArg) (d ds : String) (strings : List String)
    (items : List Item) (E : Evaluator) (h : bt strings items = .ok E) :
    templateIf bt T false delim (.fnC C) = .tmpl T
    ∧ templateIf bt T false DelimArg.omitted CallbackArg.omitted =
        .curried (ifTag bt T false " ")
    ∧ templateIf bt T false (.strD ds) CallbackArg.omitted =
        .curried (ifTag bt T false ds)
    ∧ ifTag bt T false d strings items = .ok T := by
  refine ⟨?_, rfl, rfl, ?_⟩
  · cases delim <;> simp [templateIf, normalizeIfArgs, ifReduce]
  · simp [ifTag, h, mapOk, exceptMapOk, ifReduce]

/-- C6 witness. -/
theorem if_falsy_identity_witness :
    templateIf btFallback sampleLeft false (.strD "-") (.fnC sampleRight) =
      .tmpl sampleLeft
    ∧ templateIf btFallback sampleLeft false DelimArg.omitted
        CallbackArg.omitted = .curried (ifTag btFallback sampleLeft false " ")
    ∧ templateIf btFallback sampleLeft false (.strD "-")
        CallbackArg.omitted = .curried (ifTag btFallback sampleLeft false "-")
    ∧ ifTag btFallback sampleLeft false " " ["A"] [] = .ok sampleLeft :=
  if_falsy_identity btFallback sampleLeft sampleRight (.strD "-") " " "-"
    ["A"] [] (bareTemplateFallback ["A"] []) rfl

/-- C7: a continuation gated by a falsy condition is never invoked at
render time - for a continuation that errors whenever called, the Template
returned by `if(false, ...)` is the receiver itself and its render on any
context is exactly the receiver's render, so no failure can originate from
the continuation. -/
theorem falsy_gated_continuation_uninvoked (bt : CompileFn)
    (T C : Evaluator) (delim : DelimArg) (x : Context) (e : JSErr)
    (hC : ∀ y, C y = .error e) :
    templateIf bt T false delim (.fnC C) = .tmpl T
    ∧ ifReduce T false " " C x = T x := by
  constructor
  · cases delim <;> simp [templateIf, normalizeIfArgs, ifReduce]
  · rfl

/-- C7 witness, with a continuation that throws on every call. -/
theorem falsy_gated_continuation_uninvoked_witness :
    templateIf btFallback sampleLeft false (.strD "-") (.fnC throwingEval) =
      .tmpl sampleLeft
    ∧ ifReduce sampleLeft false " " throwingEval (.obj []) =
        sampleLeft (.obj []) :=
  falsy_gated_continuation_uninvoked btFallback sampleLeft throwingEval
    (.strD "-") (.obj []) (.typeError "continuation invoked") (fun _ => rfl)

/-- C8: under both strategies, rendering with a context whose runtime type
is not object-like (a plain number or a plain string) raises the
TypeError carrying `errMsg`; the check sits inside the returned evaluator,
so (the evaluators being pure functions of their context) every invocation
with such a context fails this way, not just the first. -/
theorem invalid_context_every_render (t : List String) (its : List Item)
    (n : Int) (s : String) (h : (bareTemplateGen t its).isOk = true) :
    bareTemplateFallback t its (.num n) = .error (.typeError errMsg)
    ∧ bareTemplateFallback t its (.str s) = .error (.typeError errMsg)
    ∧ genRun t its (.num n) = .error (.typeError errMsg)
    ∧ genRun t its (.str s) = .error (.typeError errMsg) := by
  cases hcp : cookParts (genParts t its) with
  | error e =>
    simp [bareTemplateGen, hcp, bindErr, Except.isOk, Except.toBool] at h
  | ok parts =>
    refine ⟨?_, ?_, ?_, ?_⟩
    · simp [bareTemplateFallback, typeofOf]
    · simp [bareTemplateFallback, typeofOf]
    · rw [genRun_ok_parts t its parts _ hcp]
      simp [typeofOf]
    · rw [genRun_ok_parts t its parts _ hcp]
      simp [typeofOf]

/-- C8 witness. -/
theorem invalid_context_every_render_witness :
    bareTemplateFallback ["A"] [] (.num 0) = .error (.typeError errMsg)
    ∧ bareTemplateFallback ["A"] [] (.str "z") = .error (.typeError errMsg)
    ∧ genRun ["A"] [] (.num 0) = .error (.typeError errMsg)
    ∧ genRun ["A"] [] (.str "z") = .error (.typeError errMsg) :=
  invalid_context_every_render ["A"] [] 0 "z" rfl

/-- C9: key substitution contributes the stringification of
`context[key]`, with nullish lookups contributing the empty string (shown
in general on a one-key template over an arbitrary key and object), and on
the spec's concrete template `["a ", " b"]` with item `"x"` both
strategies render `"a  b"` on `{}` and on `{x: null}` and `"a VAL b"` on
`{x: "VAL"}`. -/
theorem key_substitution_semantics (k : String)
    (fields : List (String × CtxVal)) :
    bareTemplateFallback ["a ", " b"] [.key "x"] (.obj []) = .ok "a  b"
    ∧ bareTemplateFallback ["a ", " b"] [.key "x"] (.obj [("x", .null)]) =
        .ok "a  b"
    ∧ bareTemplateFallback ["a ", " b"] [.key "x"]
        (.obj [("x", .vstr "VAL")]) = .ok "a VAL b"
    ∧ genRun ["a ", " b"] [.key "x"] (.obj []) = .ok "a  b"
    ∧ genRun ["a ", " b"] [.key "x"] (.obj [("x", .null)]) = .ok "a  b"
    ∧ genRun ["a ", " b"] [.key "x"] (.obj [("x", .vstr "VAL")]) =
        .ok "a VAL b"
    ∧ bareTemplateFallback ["", ""] [.key k] (.obj fields) =
        .ok (coerceNullish (lookupField fields k))
    ∧ genRun ["", ""] [.key k] (.obj fields) =
        .ok (coerceNullish (lookupField fields k)) := by
  refine ⟨rfl, rfl, rfl, rfl, rfl, rfl, ?_, ?_⟩
  · simp [bareTemplateFallback, typeofOf, foldParts, substItem, getProp,
      bindOk, mapOk, exceptMapOk, String.empty_append, String.append_empty]
  · have hcp : cookParts (genParts ["", ""] [.key k]) =
        .ok [("", classifyGen (.key k)), ("", none)] := by
      simp [genParts, classifyGen, cookParts, cookStr, escapeFragment,
        escChars, cookChars, bindOk, mapOk, exceptMapOk, List.asString]
    rw [genRun_ok_parts ["", ""] [.key k] _ _ hcp,
      if_neg (by simp [typeofOf])]
    cases hid : isIdentifier k <;>
      simp [classifyGen, hid, evalGenParts, evalGenSubst, getProp, bindOk,
        mapOk, exceptMapOk, String.empty_append, String.append_empty]

/-- C10: the structured-value check is a `typeof` test that classifies
`null` as object-like, so a `null` context does not raise the
InvalidContext TypeError in either strategy; an evaluator compiled from a
template with no items, applied to `null`, succeeds and returns the
concatenation of its fragments. -/
theorem null_context_accepted (t : List String)
    (h : t.all goodFrag = true) :
    typeofOf Context.null = "object"
    ∧ bareTemplateFallback t [] Context.null = .ok (concatAll t)
    ∧ genRun t [] Context.null = .ok (concatAll t) := by
  refine ⟨rfl, ?_, genRun_noItems t h Context.null rfl⟩
  unfold bareTemplateFallback
  rw [if_neg (by simp [typeofOf]), foldParts_noItems, String.empty_append]

/-- C10 witness. -/
theorem null_context_accepted_witness :
    typeofOf Context.null = "object"
    ∧ bareTemplateFallback ["ab", "cd"] [] Context.null =
        .ok (concatAll ["ab", "cd"])
    ∧ genRun ["ab", "cd"] [] Context.null = .ok (concatAll ["ab", "cd"]) :=
  null_context_accepted ["ab", "cd"] (by decide)
